import Mathlib

/-!
Shallow embedding of the sitebay-mcp client/middleware core
(src/sitebay_mcp/{auth,client,exceptions,server}.py and tools/sites.py),
with theorems settling the frozen claims about its specification.

Python strings are modelled as `List Char`, JSON-ish Python values as
`PyVal`, and Python dynamic-type failures (TypeError and friends) as an
`Except PyExc` result.
-/

/-- Python `str` values are modelled as lists of characters. -/
abbrev Str := List Char

/-- Python JSON-shaped runtime values: None, bool, int, str, list, dict. -/
inductive PyVal where
  | none
  | bool (b : Bool)
  | int (i : Int)
  | str (s : Str)
  | list (xs : List PyVal)
  | dict (entries : List (Str × PyVal))

/-- Python `==` on the modelled JSON-shaped values (structural equality). -/
def PyVal.beq : PyVal → PyVal → Bool
  | .none, .none => true
  | .bool a, .bool b => a == b
  | .int a, .int b => a == b
  | .str a, .str b => a == b
  | .list [], .list [] => true
  | .list (x :: xs), .list (y :: ys) => PyVal.beq x y && PyVal.beq (.list xs) (.list ys)
  | .dict [], .dict [] => true
  | .dict ((k, v) :: es), .dict ((k', v') :: es') =>
      k == k' && PyVal.beq v v' && PyVal.beq (.dict es) (.dict es')
  | _, _ => false

/-- Python runtime exceptions that the modelled code can raise. -/
inductive PyExc where
  | typeError
  | keyError
deriving DecidableEq

/-- `s.startswith(p)` on character lists. -/
def strStartsWith : Str → Str → Bool
  | _, [] => true
  | [], _ :: _ => false
  | c :: cs, p :: ps => c == p && strStartsWith cs ps

/-- Case-insensitive-ready substring search: `p in s` for Python strings. -/
def strContains : Str → Str → Bool
  | [], p => p.isEmpty
  | c :: cs, p => strStartsWith (c :: cs) p || strContains cs p

/-- Python `s.lower()` restricted to ASCII case mapping. -/
def strLower (s : Str) : Str := s.map Char.toLower

/-- Python truthiness on the modelled values. -/
def pyTruthy : PyVal → Bool
  | .none => false
  | .bool b => b
  | .int i => i != 0
  | .str s => !s.isEmpty
  | .list xs => !xs.isEmpty
  | .dict es => !es.isEmpty

/-- Opening curly brace character (written via its code point). -/
def lbraceChar : Char := Char.ofNat 123

/-- Closing curly brace character (written via its code point). -/
def rbraceChar : Char := Char.ofNat 125

/-- Single-quote character (written via its code point). -/
def squoteChar : Char := Char.ofNat 39

mutual

/-- Python `repr` on the modelled values: strings get single quotes
(escaping inside strings is not modelled), containers render their
items with `repr`, exactly as Python does when stringifying them. -/
def pyRepr : PyVal → Str
  | .none => "None".data
  | .bool true => "True".data
  | .bool false => "False".data
  | .int i => (toString i).data
  | .str s => squoteChar :: (s ++ [squoteChar])
  | .list xs => '[' :: (List.intercalate ", ".data (pyReprList xs) ++ [']'])
  | .dict es => lbraceChar :: (List.intercalate ", ".data (pyReprEntries es) ++ [rbraceChar])

/-- `repr` of each element of a Python list. -/
def pyReprList : List PyVal → List Str
  | [] => []
  | x :: xs => pyRepr x :: pyReprList xs

/-- `repr`-rendered `key: value` pieces of a Python dict. -/
def pyReprEntries : List (Str × PyVal) → List Str
  | [] => []
  | (k, v) :: es => (pyRepr (.str k) ++ ": ".data ++ pyRepr v) :: pyReprEntries es

end

/-- Python `str(x)`: identical to `repr` except that a top-level string
is returned verbatim. -/
def pyStr : PyVal → Str
  | .str s => s
  | v => pyRepr v

/-- Python iteration: lists yield elements, strings yield one-character
strings, dicts yield their keys; other values raise `TypeError`. -/
def pyIter : PyVal → Except PyExc (List PyVal)
  | .list xs => .ok xs
  | .str s => .ok (s.map (fun c => .str [c]))
  | .dict es => .ok (es.map (fun kv => .str kv.1))
  | _ => .error .typeError

/-- First-match lookup in a Python dict. -/
def dictFind : List (Str × PyVal) → Str → Option PyVal
  | [], _ => Option.none
  | (k, v) :: es, key => if k = key then some v else dictFind es key

/-- Python `d.get(key, default)`. -/
def dictFindD (es : List (Str × PyVal)) (key : Str) (dflt : PyVal) : PyVal :=
  (dictFind es key).getD dflt

/-- Python `key in x` for a string key: dict membership over keys, list
membership via `==`, substring test on strings; anything else raises
`TypeError`. -/
def pyContains (v : PyVal) (key : Str) : Except PyExc Bool :=
  match v with
  | .dict es => .ok (dictFind es key).isSome
  | .list xs => .ok (xs.any (fun x => PyVal.beq x (.str key)))
  | .str s => .ok (strContains s key)
  | _ => .error .typeError

/-- Python `x[key]` for a string key: dict lookup (raising `KeyError`
when absent); indexing anything else with a string raises `TypeError`. -/
def pySubscript (v : PyVal) (key : Str) : Except PyExc PyVal :=
  match v with
  | .dict es =>
      match dictFind es key with
      | some w => .ok w
      | Option.none => .error .keyError
  | _ => .error .typeError

/-- Python `sep.join(items)` where the items must all be strings
(a non-string item raises `TypeError`, as `str.join` does). -/
def pyJoinStrs (sep : Str) (items : List PyVal) : Except PyExc Str := do
  let rec gather : List PyVal → Except PyExc (List Str)
    | [] => .ok []
    | .str s :: rest => do
        let tail ← gather rest
        .ok (s :: tail)
    | _ :: _ => .error .typeError
  let parts ← gather items
  .ok (List.intercalate sep parts)

example : pyTruthy (.str "a".data) = true := by decide
example : strContains "abc".data "bc".data = true := by decide
example : strStartsWith "/foo".data "/".data = true := by decide

/-!  Exception taxonomy from src/sitebay_mcp/exceptions.py.  There is no
Network-specific class there: network failures reuse `APIError`.  -/

/-- The SiteBayError hierarchy (exceptions.py): AuthenticationError,
SiteNotFoundError, ValidationError(message, field_errors),
APIError(message, status_code, response_data), ConfigurationError.
`APIError.message` is the raw Python object passed to the constructor,
hence `PyVal`. -/
inductive SiteBayErr where
  | authenticationError (msg : Str)
  | siteNotFoundError (msg : Str)
  | validationError (msg : Str) (fieldErrors : List (Str × PyVal))
  | apiError (msg : PyVal) (statusCode : Option Nat) (responseData : Option PyVal)
  | configurationError (msg : Str)

/-- Whether an error is the Generic-API kind, i.e. an `APIError`. -/
def SiteBayErr.isGenericAPI : SiteBayErr → Bool
  | .apiError _ _ _ => true
  | _ => false

/-- Whether an error is the NotFound kind, i.e. a `SiteNotFoundError`. -/
def SiteBayErr.isNotFoundErr : SiteBayErr → Bool
  | .siteNotFoundError _ => true
  | _ => false

/-- Python `str(e)` on a SiteBayError: the stringified first constructor
argument. -/
def errMessage : SiteBayErr → Str
  | .authenticationError m => m
  | .siteNotFoundError m => m
  | .validationError m _ => m
  | .apiError m _ _ => pyStr m
  | .configurationError m => m

/-!  Authenticator, from src/sitebay_mcp/auth.py.  -/

/-- The ConfigurationError message raised by `SiteBayAuth.__init__`
(two adjacent string literals in the source concatenate). -/
def missingTokenMsg : Str :=
  ("SiteBay API token is required. Set SITEBAY_API_TOKEN environment variable "
    ++ "or pass token directly to the server.").data

/-- Python `a or b` where `a` is an optional string: `a` is kept iff it
is truthy (present and non-empty), else `b` is the result. -/
def pyOrStrOpt (a b : Option Str) : Option Str :=
  match a with
  | some s => if s.isEmpty then b else some s
  | Option.none => b

/-- `SiteBayAuth.__init__(api_token)` (auth.py lines 13-25):
`self.api_token = api_token or self._get_token_from_env()`, then a
falsy token raises ConfigurationError; on success the held credential
is returned. `envToken` is the value of `SITEBAY_API_TOKEN` (absent, or
set to a possibly empty string). -/
def authInit (apiToken envToken : Option Str) : Except SiteBayErr Str :=
  match pyOrStrOpt apiToken envToken with
  | some s =>
      if s.isEmpty then .error (.configurationError missingTokenMsg) else .ok s
  | Option.none => .error (.configurationError missingTokenMsg)

/-- `SiteBayAuth.validate_token` (auth.py lines 42-54): false for a
missing or falsy (empty) token or one shorter than 20 characters, true
otherwise. -/
def validateToken (apiToken : Option Str) : Bool :=
  match apiToken with
  | Option.none => false
  | some s =>
      if s.isEmpty then false
      else if s.length < 20 then false
      else true

/-!  API client, from src/sitebay_mcp/client.py.  -/

/-- The client's fixed API path segment, `SiteBayClient.API_PREFIX`. -/
def apiPrefixV1 : Str := "/f/api/v1".data

/-- `SiteBayClient._get_url` (client.py lines 45-49): prepend "/" when
the endpoint does not already start with one, then prepend the fixed
API path segment. -/
def getUrl (endpoint : Str) : Str :=
  let e := if strStartsWith endpoint "/".data then endpoint else '/' :: endpoint
  apiPrefixV1 ++ e

/-- `" -> ".join(str(x) for x in loc) if loc else emptyName`: the shared
location-rendering step of `_format_validation_error` and
`_extract_field_errors` (they differ only in `emptyName`).  Iterating a
truthy non-iterable `loc` raises `TypeError`, exactly as the generator
expression does. -/
def fmtLoc (loc : PyVal) (emptyName : Str) : Except PyExc Str :=
  if pyTruthy loc then do
    let xs ← pyIter loc
    .ok (List.intercalate " -> ".data (xs.map pyStr))
  else .ok emptyName

/-- The per-entry loop over a `detail` list in `_format_validation_error`
(client.py lines 73-80): non-dict entries are skipped, each dict entry
renders as `"<loc joined> : <msg>"` with defaults `[]` and
`"Invalid value"`. -/
def fvDetailMsgs : List PyVal → Except PyExc (List Str)
  | [] => .ok []
  | e :: rest =>
      match e with
      | .dict es => do
          let loc := dictFindD es "loc".data (.list [])
          let msg := dictFindD es "msg".data (.str "Invalid value".data)
          let field ← fmtLoc loc "unknown field".data
          let tail ← fvDetailMsgs rest
          .ok ((field ++ ": ".data ++ pyStr msg) :: tail)
      | _ => fvDetailMsgs rest

/-- The loop over an `errors` mapping in `_format_validation_error`
(client.py lines 92-99): a list value contributes one line per element,
any other value contributes a single line. -/
def fvErrorsMsgs : List (Str × PyVal) → List Str
  | [] => []
  | (f, ms) :: rest =>
      match ms with
      | .list vs => vs.map (fun m => f ++ ": ".data ++ pyStr m) ++ fvErrorsMsgs rest
      | m => (f ++ ": ".data ++ pyStr m) :: fvErrorsMsgs rest

/-- `"Validation Error:\n" + "\n".join("  • " + m for m in msgs)`. -/
def bulleted (msgs : List Str) : Str :=
  "Validation Error:\n".data
    ++ List.intercalate "\n".data (msgs.map (fun m => "  • ".data ++ m))

/-- `SiteBayClient._format_validation_error` (client.py lines 51-104),
with Python's dynamic-type failures surfaced in `Except`. -/
def formatValidationError (d : PyVal) : Except PyExc Str := do
  if !pyTruthy d then return "Validation failed".data
  let hasDetail ← pyContains d "detail".data
  let detailResult : Option Str ←
    if hasDetail then do
      let detail ← pySubscript d "detail".data
      match detail with
      | .str s => pure (some ("Validation Error: ".data ++ s))
      | .list l => do
          let msgs ← fvDetailMsgs l
          pure (if msgs.isEmpty then Option.none else some (bulleted msgs))
      | _ => pure Option.none
    else pure Option.none
  match detailResult with
  | some m => return m
  | Option.none =>
    let hasMessage ← pyContains d "message".data
    if hasMessage then do
      let m ← pySubscript d "message".data
      return ("Validation Error: ".data ++ pyStr m)
    else
      let hasErrors ← pyContains d "errors".data
      if hasErrors then do
        let errs ← pySubscript d "errors".data
        match errs with
        | .dict es =>
            let msgs := fvErrorsMsgs es
            if msgs.isEmpty then return ("Validation Error: ".data ++ pyStr d)
            else return (bulleted msgs)
        | _ => return ("Validation Error: ".data ++ pyStr d)
      else return ("Validation Error: ".data ++ pyStr d)

/-- Python dict assignment `fe[k] = v`: overwrite in place, else append. -/
def insertFieldErr (fe : List (Str × PyVal)) (k : Str) (v : PyVal) :
    List (Str × PyVal) :=
  match fe with
  | [] => [(k, v)]
  | (k', v') :: rest =>
      if k' = k then (k, v) :: rest else (k', v') :: insertFieldErr rest k v

/-- The `detail`-list loop of `_extract_field_errors` (client.py lines
122-128): dict entries map their joined `loc` (default name "unknown")
to the raw `msg` value. -/
def efDetailLoop : List PyVal → List (Str × PyVal) → Except PyExc (List (Str × PyVal))
  | [], fe => .ok fe
  | e :: rest, fe =>
      match e with
      | .dict es => do
          let loc := dictFindD es "loc".data (.list [])
          let msg := dictFindD es "msg".data (.str "Invalid value".data)
          let field ← fmtLoc loc "unknown".data
          efDetailLoop rest (insertFieldErr fe field msg)
      | _ => efDetailLoop rest fe

/-- The `errors`-mapping loop of `_extract_field_errors` (client.py lines
131-136): list values are joined with "; " (raising `TypeError` on a
non-string element, as `str.join` does), other values are stringified. -/
def efErrorsLoop : List (Str × PyVal) → List (Str × PyVal) → Except PyExc (List (Str × PyVal))
  | [], fe => .ok fe
  | (f, ms) :: rest, fe =>
      match ms with
      | .list vs => do
          let joined ← pyJoinStrs "; ".data vs
          efErrorsLoop rest (insertFieldErr fe f (.str joined))
      | m => efErrorsLoop rest (insertFieldErr fe f (.str (pyStr m)))

/-- `SiteBayClient._extract_field_errors` (client.py lines 106-138), with
Python's dynamic-type failures surfaced in `Except`: a falsy input gives
an empty map, then `"detail" in d` / `d["detail"]` (either may raise)
selects the detail-list loop when the value is a list, otherwise
`"errors" in d` / `d["errors"]` selects the errors-mapping loop when
the value is a dict, otherwise the map stays empty. -/
def extractFieldErrors (d : PyVal) : Except PyExc (List (Str × PyVal)) :=
  if !pyTruthy d then .ok []
  else
    match pyContains d "detail".data with
    | .error e => .error e
    | .ok hasDetail =>
      match (if hasDetail then (pySubscript d "detail".data).map some
             else .ok Option.none) with
      | .error e => .error e
      | .ok (some (.list l)) => efDetailLoop l []
      | .ok _ =>
        match pyContains d "errors".data with
        | .error e => .error e
        | .ok hasErrors =>
          match (if hasErrors then (pySubscript d "errors".data).map some
                 else .ok Option.none) with
          | .error e => .error e
          | .ok (some (.dict es)) => efErrorsLoop es []
          | .ok _ => .ok []

/-- The outcome of the underlying `httpx` call in `_request`: either a
transport-level failure (`httpx.RequestError`, carrying `str(e)`), or a
response with a status code, raw text body, and the result of
`response.json()` (`Option.none` when the body is not parseable JSON). -/
inductive HttpOutcome where
  | transportFailure (detail : Str)
  | response (status : Nat) (text : Str) (jsonBody : Option PyVal)

/-- What `SiteBayClient._request` does with a response: return the
parsed payload, return the raw text, or raise a SiteBayError. -/
inductive RequestResult where
  | payload (v : PyVal)
  | rawText (t : Str)
  | raised (e : SiteBayErr)

/-- `SiteBayClient._request` response handling (client.py lines 167-217):
status 401/404/422 map to the dedicated errors, any other status >= 400
to APIError (a JSON dict body supplies an optional `detail` message and
is kept as `response_data`; a JSON non-dict body makes `.get` raise so
the fallback message with the raw text is used, with the parsed body
still kept; a non-JSON body gives the fallback message with no body),
status < 400 returns the parsed JSON or the raw text, and an
`httpx.RequestError` is re-raised as `APIError("Network error: ...")`
with no status code. -/
def request (o : HttpOutcome) : RequestResult :=
  match o with
  | .transportFailure d =>
      .raised (.apiError (.str ("Network error: ".data ++ d)) Option.none Option.none)
  | .response status text jsonBody =>
      if status = 401 then
        .raised (.authenticationError "Invalid or expired API token".data)
      else if status = 404 then
        .raised (.siteNotFoundError "Requested resource not found".data)
      else if status = 422 then
        match jsonBody with
        | some d =>
            match formatValidationError d, extractFieldErrors d with
            | .ok m, .ok fe => .raised (.validationError m fe)
            | _, _ =>
                .raised (.validationError ("Validation Error: ".data ++ text) [])
        | Option.none =>
            .raised (.validationError ("Validation Error: ".data ++ text) [])
      else if 400 ≤ status then
        match jsonBody with
        | some (.dict es) =>
            .raised (.apiError
              (dictFindD es "detail".data
                (.str ("API Error: ".data ++ (toString status).data)))
              (some status) (some (.dict es)))
        | some d =>
            .raised (.apiError
              (.str ("API Error: ".data ++ (toString status).data
                ++ " - ".data ++ text))
              (some status) (some d))
        | Option.none =>
            .raised (.apiError
              (.str ("API Error: ".data ++ (toString status).data
                ++ " - ".data ++ text))
              (some status) Option.none)
      else
        match jsonBody with
        | some v => .payload v
        | Option.none => .rawText text

/-- The validation-error body named by claim C5:
`{"detail": [{"loc": ["body","field"], "msg": "invalid"}]}`. -/
def c5Body : PyVal :=
  .dict [("detail".data,
    .list [.dict [("loc".data, .list [.str "body".data, .str "field".data]),
                  ("msg".data, .str "invalid".data)]])]

/-!  Robustness Middleware.  The spec describes a retry/fallback layer at
the tool-invocation boundary; no file under src/ implements it, so it is
modelled from the spec (sections 4.3, 7 and 8).  -/

/-- Modelled from the spec: the terminal outcome of one
Middleware-mediated call — either a value handed to the caller (a
success result or a substituted fallback value) or a terminal failure
carrying the original error and the normalized message. -/
inductive MWOutcome where
  | value (v : PyVal)
  | failed (e : SiteBayErr) (normMsg : Str)

/-- Modelled from the spec: the resolution of one Middleware-mediated
call — the outcome, the number of retries performed, and the backoff
delays slept (in seconds), in order. -/
structure MWRun where
  outcome : MWOutcome
  retries : Nat
  delays : List ℚ

/-- Modelled from the spec (section 4.3): an error message is retryable
iff it indicates HTTP 502/503/504, a generic "request error", a
connection error, or a timeout — a case-insensitive substring match. -/
def retryableMessage (msg : Str) : Bool :=
  let m := strLower msg
  strContains m "502".data || strContains m "503".data
    || strContains m "504".data || strContains m "request error".data
    || strContains m "connection".data || strContains m "timeout".data

/-- Modelled from the spec (section 4.3): strip a redundant
"Error calling tool '<name>': " piece from the front of a message when
present. -/
def stripErrorCallingTag (name msg : Str) : Str :=
  let tag := "Error calling tool ".data ++ [squoteChar] ++ name
    ++ [squoteChar] ++ ": ".data
  if strStartsWith msg tag then msg.drop tag.length else msg

/-- Modelled from the spec (section 4.3): the normalized terminal error
message, `"Upstream API error for <name>: <message>"` after the strip
step. -/
def normalizeErrMsg (name : Str) (e : SiteBayErr) : Str :=
  "Upstream API error for ".data ++ name ++ ": ".data
    ++ stripErrorCallingTag name (errMessage e)

/-- Modelled from the spec (sections 3 and 4.3): on a terminal failure,
a 404 classification whose operation is registered in the Fallback
Policy Table resolves to the registered neutral value; every other
failure resolves to `failed` with the normalized message. -/
def settleFailure (table : List (Str × PyVal)) (name : Str) (e : SiteBayErr)
    (n : Nat) (delays : List ℚ) : MWRun :=
  match dictFind table name with
  | some fb =>
      if e.isNotFoundErr then ⟨.value fb, n, delays.reverse⟩
      else ⟨.failed e (normalizeErrMsg name e), n, delays.reverse⟩
  | Option.none => ⟨.failed e (normalizeErrMsg name e), n, delays.reverse⟩

/-- Modelled from the spec (section 4.3): the `Attempting(n)` state
machine.  `calls k` is the result of the k-th execution of the
underlying operation; `fuel` is the number of retries still allowed
(`max_retries - n`); `delays` accumulates the backoff sleeps in reverse.
On failure with a retryable message and fuel left, sleep
`base * 2 ^ n` and retry; otherwise settle via the fallback check. -/
def mwLoop (table : List (Str × PyVal)) (name : Str)
    (calls : Nat → Except SiteBayErr PyVal) (base : ℚ) :
    Nat → Nat → List ℚ → MWRun
  | fuel, n, delays =>
    match calls n, fuel with
    | .ok v, _ => ⟨.value v, n, delays.reverse⟩
    | .error e, fuel' + 1 =>
        if retryableMessage (errMessage e) then
          mwLoop table name calls base fuel' (n + 1) (base * 2 ^ n :: delays)
        else settleFailure table name e n delays
    | .error e, 0 => settleFailure table name e n delays

/-- Modelled from the spec (section 4.3): one Middleware-mediated call
with `max_retries` retries allowed (default 3) and exponential backoff
from `base` (default 0.5 s). -/
def middlewareRun (maxRetries : Nat) (base : ℚ) (table : List (Str × PyVal))
    (name : Str) (calls : Nat → Except SiteBayErr PyVal) : MWRun :=
  mwLoop table name calls base maxRetries 0 []

/-!  Delete-site tool (src/sitebay_mcp/tools/sites.py lines 227-263) and
its server wrapper (src/sitebay_mcp/server.py lines 28-43 and 211-224),
with the Client operations each run performs recorded as a trace.  -/

/-- A Client-backed operation observable from the delete-site flow. -/
inductive ClientCall where
  | listRegions
  | deleteSite (fqdn : Str)
deriving DecidableEq

/-- The confirmation-required string returned by
`sitebay_delete_site(confirm=False)` (tools/sites.py lines 242-252). -/
def confirmationRequiredMsg (fqdn : Str) : Str :=
  "⚠️  **CONFIRMATION REQUIRED**\n\nYou are about to permanently delete the site: **".data
    ++ fqdn
    ++ ("**\n\nThis action will:\n• Delete all website files and content\n"
        ++ "• Delete the database and all data\n• Remove any staging sites\n"
        ++ "• Cannot be undone\n\n"
        ++ "To proceed with deletion, call this function again with confirm=True").data

/-- `tools.sites.sitebay_delete_site(client, fqdn, confirm)` (tools/
sites.py lines 227-263): without confirmation it returns the
confirmation-required string before any Client call; with confirmation
it issues the delete request (`deleteOutcome` is what that request
does) and formats the success or the caught SiteBayError.  The second
component is the trace of Client operations performed. -/
def toolDeleteSite (fqdn : Str) (confirm : Bool)
    (deleteOutcome : Except SiteBayErr PyVal) : Str × List ClientCall :=
  if !confirm then (confirmationRequiredMsg fqdn, [])
  else
    match deleteOutcome with
    | .ok _ =>
        ("✅ **Site Deleted Successfully**\n\nThe site ".data ++ fqdn
          ++ " has been permanently deleted.".data, [.deleteSite fqdn])
    | .error e =>
        ("Error deleting site: ".data ++ errMessage e, [.deleteSite fqdn])

/-- `server.initialize_client` (server.py lines 28-43): when the global
client already exists it is returned with no Client operation; on first
use the client is built and tested with a `list_regions` call
(`connTest`), and any failure is wrapped into
`ConfigurationError("Failed to initialize SiteBay client: ...")`. -/
def initializeClient (alreadyInitialized : Bool)
    (connTest : Except SiteBayErr PyVal) :
    Except SiteBayErr Unit × List ClientCall :=
  if alreadyInitialized then (.ok (), [])
  else
    match connTest with
    | .ok _ => (.ok (), [.listRegions])
    | .error e =>
        (.error (.configurationError
          ("Failed to initialize SiteBay client: ".data ++ errMessage e)),
         [.listRegions])

/-- The `sitebay_delete_site` MCP tool (server.py lines 211-224): it
first runs `initialize_client()` (whose failure propagates), then
delegates to the tools-layer function; the trace concatenates the
Client operations of both steps. -/
def serverDeleteSite (alreadyInitialized : Bool)
    (connTest : Except SiteBayErr PyVal) (fqdn : Str) (confirm : Bool)
    (deleteOutcome : Except SiteBayErr PyVal) :
    Except SiteBayErr Str × List ClientCall :=
  match initializeClient alreadyInitialized connTest with
  | (.error e, cs) => (.error e, cs)
  | (.ok _, cs) =>
      let r := toolDeleteSite fqdn confirm deleteOutcome
      (.ok r.1, cs ++ r.2)

/-!  Claim theorems.  -/

/-- C7 counterexample: the claim quantifies over every endpoint string,
but for an endpoint that already starts with "/" (here "/foo"),
`_get_url` applied to it and to "/" + it produce different results, so
the two are not equal and neither is "prefix + one separator + s". -/
theorem c7_counterexample :
    getUrl "/foo".data ≠ getUrl ("/".data ++ "/foo".data) := by decide

/-- C7 (amended): for every endpoint string that does not already start
with "/", `_get_url` applied to it and to "/" + it both yield the fixed
prefix "/f/api/v1", one "/" separator, then the endpoint. -/
theorem c7_amended (s : Str) (h : strStartsWith s "/".data = false) :
    getUrl s = apiPrefixV1 ++ "/".data ++ s
      ∧ getUrl ("/".data ++ s) = apiPrefixV1 ++ "/".data ++ s := by
  constructor
  · simp [getUrl, h]
  · have hs : ("/".data ++ s) = '/' :: s := rfl
    rw [hs]
    simp [getUrl, strStartsWith]

/-- C7 witness: the amended theorem applied at the endpoint "site". -/
theorem c7_witness :
    getUrl "site".data = apiPrefixV1 ++ "/".data ++ "site".data
      ∧ getUrl ("/".data ++ "site".data) = apiPrefixV1 ++ "/".data ++ "site".data :=
  c7_amended "site".data (by decide)

/-- C8: `validate_token` returns false for a missing token and for any
token shorter than 20 characters (which includes the empty token), and
true for any token of length at least 20. -/
theorem c8_validate_token (t : Option Str) :
    (t = Option.none → validateToken t = false)
      ∧ (∀ s, t = some s → s.length < 20 → validateToken t = false)
      ∧ (∀ s, t = some s → 20 ≤ s.length → validateToken t = true) := by
  refine ⟨?_, ?_, ?_⟩
  · rintro rfl; rfl
  · rintro s rfl hlt
    by_cases he : s.isEmpty
    · simp [validateToken, he]
    · simp [validateToken, he, hlt]
  · rintro s rfl hge
    have he : s.isEmpty = false := by
      cases s with
      | nil => simp at hge
      | cons a as => rfl
    have hlt : ¬s.length < 20 := by omega
    simp [validateToken, he, hlt]

/-- C8 witness: the theorem applied at a missing token, a 5-character
token, and a 25-character token. -/
theorem c8_validate_token_witness :
    validateToken Option.none = false
      ∧ validateToken (some "short".data) = false
      ∧ validateToken (some "aaaaaaaaaaaaaaaaaaaaaaaaa".data) = true :=
  ⟨(c8_validate_token Option.none).1 rfl,
   (c8_validate_token (some "short".data)).2.1 "short".data rfl (by decide),
   (c8_validate_token (some "aaaaaaaaaaaaaaaaaaaaaaaaa".data)).2.2
     "aaaaaaaaaaaaaaaaaaaaaaaaa".data rfl (by decide)⟩

/-- C9: constructing the Authenticator with an explicit empty-string
token behaves exactly as constructing it with no token: the environment
variable is consulted, a ConfigurationError is raised when it is unset
or empty, and an empty explicit token is never held as the credential. -/
theorem c9_empty_token (env : Option Str) :
    authInit (some []) env = authInit Option.none env
      ∧ authInit (some []) Option.none
          = .error (.configurationError missingTokenMsg)
      ∧ authInit (some []) (some [])
          = .error (.configurationError missingTokenMsg)
      ∧ (∀ tok, authInit (some []) env = .ok tok → tok.isEmpty = false) := by
  refine ⟨?_, rfl, rfl, ?_⟩
  · rfl
  · intro tok h
    cases env with
    | none => exact absurd h (by simp [authInit, pyOrStrOpt])
    | some s =>
      by_cases hs : s.isEmpty
      · exact absurd h (by simp [authInit, pyOrStrOpt, hs])
      · have : authInit (some []) (some s) = .ok s := by
          simp [authInit, pyOrStrOpt, hs]
        rw [this] at h
        cases h
        exact Bool.not_eq_true _ ▸ (by simpa using hs)

/-- C9 witness: the theorem applied with the environment variable set to
a non-empty token. -/
theorem c9_empty_token_witness :
    authInit (some []) (some "x".data) = authInit Option.none (some "x".data)
      ∧ ("x".data : Str).isEmpty = false :=
  ⟨(c9_empty_token (some "x".data)).1,
   (c9_empty_token (some "x".data)).2.2.2 "x".data rfl⟩

/-- C1 counterexample: a transport-level failure is raised through the
Generic-API class `APIError` (exceptions.py defines no Network class),
so the claimed "Network-kind error ... distinct from Generic-API" does
not exist: the raised error satisfies `isGenericAPI`. -/
theorem c1_counterexample :
    request (.transportFailure "boom".data)
      = .raised (.apiError (.str "Network error: boom".data)
          Option.none Option.none)
      ∧ (SiteBayErr.apiError (.str "Network error: boom".data)
          Option.none Option.none).isGenericAPI = true :=
  ⟨rfl, rfl⟩

/-- C1 (amended): status 401 raises AuthenticationError, 404 raises
SiteNotFoundError, 422 raises ValidationError, any other status >= 400
raises APIError carrying the status code, status < 400 with a JSON body
returns the parsed payload and with a non-JSON body returns the raw
text; a transport failure raises an APIError (the same Generic-API
class, distinguished only by its absent status code) with message
"Network error: <detail>". -/
theorem c1_classification :
    (∀ t j, request (.response 401 t j)
        = .raised (.authenticationError "Invalid or expired API token".data))
    ∧ (∀ t j, request (.response 404 t j)
        = .raised (.siteNotFoundError "Requested resource not found".data))
    ∧ (∀ t j, ∃ m fe, request (.response 422 t j)
        = .raised (.validationError m fe))
    ∧ (∀ s t j, 400 ≤ s → s ≠ 401 → s ≠ 404 → s ≠ 422 →
        ∃ m rd, request (.response s t j) = .raised (.apiError m (some s) rd))
    ∧ (∀ s t v, s < 400 → request (.response s t (some v)) = .payload v)
    ∧ (∀ s t, s < 400 → request (.response s t Option.none) = .rawText t)
    ∧ (∀ d, request (.transportFailure d)
        = .raised (.apiError (.str ("Network error: ".data ++ d))
            Option.none Option.none)) := by
  refine ⟨?_, ?_, ?_, ?_, ?_, ?_, ?_⟩
  · intro t j; rfl
  · intro t j; rfl
  · intro t j
    cases j with
    | none => exact ⟨"Validation Error: ".data ++ t, [], rfl⟩
    | some d =>
      have hr : request (.response 422 t (some d))
          = (match formatValidationError d, extractFieldErrors d with
             | .ok m, .ok fe => .raised (.validationError m fe)
             | _, _ =>
                .raised (.validationError ("Validation Error: ".data ++ t) [])) :=
        rfl
      cases hf : formatValidationError d with
      | ok m =>
        cases he : extractFieldErrors d with
        | ok fe => exact ⟨m, fe, by rw [hr, hf, he]⟩
        | error e =>
          exact ⟨"Validation Error: ".data ++ t, [], by rw [hr, hf, he]⟩
      | error e =>
        cases he : extractFieldErrors d with
        | ok fe =>
          exact ⟨"Validation Error: ".data ++ t, [], by rw [hr, hf, he]⟩
        | error e2 =>
          exact ⟨"Validation Error: ".data ++ t, [], by rw [hr, hf, he]⟩
  · intro s t j h400 h401 h404 h422
    simp only [request, if_neg h401, if_neg h404, if_neg h422, if_pos h400]
    cases j with
    | none =>
      exact ⟨.str ("API Error: ".data ++ (toString s).data ++ " - ".data ++ t),
        Option.none, rfl⟩
    | some d =>
      cases d with
      | dict es =>
          exact ⟨dictFindD es "detail".data
            (.str ("API Error: ".data ++ (toString s).data)),
            some (.dict es), rfl⟩
      | none =>
          exact ⟨.str ("API Error: ".data ++ (toString s).data ++ " - ".data ++ t),
            some .none, rfl⟩
      | bool b =>
          exact ⟨.str ("API Error: ".data ++ (toString s).data ++ " - ".data ++ t),
            some (.bool b), rfl⟩
      | int i =>
          exact ⟨.str ("API Error: ".data ++ (toString s).data ++ " - ".data ++ t),
            some (.int i), rfl⟩
      | str s2 =>
          exact ⟨.str ("API Error: ".data ++ (toString s).data ++ " - ".data ++ t),
            some (.str s2), rfl⟩
      | list xs =>
          exact ⟨.str ("API Error: ".data ++ (toString s).data ++ " - ".data ++ t),
            some (.list xs), rfl⟩
  · intro s t v hlt
    have h401 : s ≠ 401 := by omega
    have h404 : s ≠ 404 := by omega
    have h422 : s ≠ 422 := by omega
    have h400 : ¬400 ≤ s := by omega
    simp only [request]
    rw [if_neg h401, if_neg h404, if_neg h422, if_neg h400]
  · intro s t hlt
    have h401 : s ≠ 401 := by omega
    have h404 : s ≠ 404 := by omega
    have h422 : s ≠ 422 := by omega
    have h400 : ¬400 ≤ s := by omega
    simp only [request]
    rw [if_neg h401, if_neg h404, if_neg h422, if_neg h400]
  · intro d; rfl

/-- C1 witness: the classification theorem applied at concrete statuses
200 (JSON and non-JSON bodies), 500, 422, and a transport failure. -/
theorem c1_classification_witness :
    request (.response 200 "ok".data (some (.int 5))) = .payload (.int 5)
      ∧ request (.response 204 "plain".data Option.none) = .rawText "plain".data
      ∧ (∃ m rd, request (.response 500 "oops".data Option.none)
          = .raised (.apiError m (some 500) rd))
      ∧ (∃ m fe, request (.response 422 "bad".data Option.none)
          = .raised (.validationError m fe))
      ∧ request (.transportFailure "timeout".data)
          = .raised (.apiError (.str ("Network error: ".data ++ "timeout".data))
              Option.none Option.none) :=
  ⟨c1_classification.2.2.2.2.1 200 "ok".data (.int 5) (by omega),
   c1_classification.2.2.2.2.2.1 204 "plain".data (by omega),
   c1_classification.2.2.2.1 500 "oops".data Option.none (by omega)
     (by omega) (by omega) (by omega),
   c1_classification.2.2.1 "bad".data Option.none,
   c1_classification.2.2.2.2.2.2 "timeout".data⟩

/-- Whether a value is a Python dict. -/
def PyVal.isDict : PyVal → Bool
  | .dict _ => true
  | _ => false

/-- C4 counterexample: a 500 response whose body parses as a JSON dict
with no `detail` field produces the message "API Error: 500" WITHOUT
the raw body text, contradicting the claim that whenever no detail
field is used the message is "API Error: <status> - <raw body>". -/
theorem c4_counterexample :
    request (.response 500 "oops".data (some (.dict [("a".data, .str "x".data)])))
      = .raised (.apiError (.str "API Error: 500".data) (some 500)
          (some (.dict [("a".data, .str "x".data)])))
      ∧ "API Error: 500".data ≠ ("API Error: 500 - ".data ++ "oops".data) :=
  ⟨rfl, by decide⟩

/-- C4 (amended): for a status >= 400 other than 401/404/422, a JSON
dict body with a `detail` field makes that detail the APIError message;
a JSON dict body without `detail` gives exactly "API Error: <status>"
(no raw body); the raw-body fallback "API Error: <status> - <raw body>"
is used only when the body is not a JSON dict — not JSON at all, or
JSON of a non-dict shape (where `.get` raises inside the same try). -/
theorem c4_generic_api_message (s : Nat) (t : Str)
    (h400 : 400 ≤ s) (h401 : s ≠ 401) (h404 : s ≠ 404) (h422 : s ≠ 422) :
    (∀ es v, dictFind es "detail".data = some v →
        request (.response s t (some (.dict es)))
          = .raised (.apiError v (some s) (some (.dict es))))
      ∧ (∀ es, dictFind es "detail".data = Option.none →
          request (.response s t (some (.dict es)))
            = .raised (.apiError
                (.str ("API Error: ".data ++ (toString s).data))
                (some s) (some (.dict es))))
      ∧ (∀ d, d.isDict = false →
          request (.response s t (some d))
            = .raised (.apiError
                (.str ("API Error: ".data ++ (toString s).data
                  ++ " - ".data ++ t))
                (some s) (some d)))
      ∧ request (.response s t Option.none)
          = .raised (.apiError
              (.str ("API Error: ".data ++ (toString s).data
                ++ " - ".data ++ t))
              (some s) Option.none) := by
  refine ⟨?_, ?_, ?_, ?_⟩
  · intro es v hfind
    simp only [request]
    rw [if_neg h401, if_neg h404, if_neg h422, if_pos h400]
    simp [dictFindD, hfind]
  · intro es hfind
    simp only [request]
    rw [if_neg h401, if_neg h404, if_neg h422, if_pos h400]
    simp [dictFindD, hfind]
  · intro d hd
    simp only [request]
    rw [if_neg h401, if_neg h404, if_neg h422, if_pos h400]
    cases d with
    | dict es => exact absurd hd (by simp [PyVal.isDict])
    | none => rfl
    | bool b => rfl
    | int i => rfl
    | str s2 => rfl
    | list xs => rfl
  · simp only [request]
    rw [if_neg h401, if_neg h404, if_neg h422, if_pos h400]

/-- C4 witness: the amended theorem applied at status 500 with a detail
body, a no-detail body, a JSON non-dict body, and a non-JSON body. -/
theorem c4_generic_api_message_witness :
    request (.response 500 "oops".data
        (some (.dict [("detail".data, .str "bad gateway".data)])))
      = .raised (.apiError (.str "bad gateway".data) (some 500)
          (some (.dict [("detail".data, .str "bad gateway".data)])))
      ∧ request (.response 500 "oops".data (some (.list [.int 1])))
          = .raised (.apiError
              (.str ("API Error: ".data ++ (toString 500).data
                ++ " - ".data ++ "oops".data))
              (some 500) (some (.list [.int 1])))
      ∧ request (.response 500 "oops".data Option.none)
          = .raised (.apiError
              (.str ("API Error: ".data ++ (toString 500).data
                ++ " - ".data ++ "oops".data))
              (some 500) Option.none) :=
  ⟨(c4_generic_api_message 500 "oops".data (by omega) (by omega) (by omega)
      (by omega)).1 [("detail".data, .str "bad gateway".data)]
      (.str "bad gateway".data) (by simp [dictFind]),
   (c4_generic_api_message 500 "oops".data (by omega) (by omega) (by omega)
      (by omega)).2.2.1 (.list [.int 1]) (by simp [PyVal.isDict]),
   (c4_generic_api_message 500 "oops".data (by omega) (by omega) (by omega)
      (by omega)).2.2.2⟩

/-- C5: for the body `{"detail": [{"loc": ["body","field"], "msg":
"invalid"}]}`, the formatted message contains "field" and "invalid",
and field-error extraction returns exactly the single-entry mapping
from "body -> field" to "invalid". -/
theorem c5_validation_formatting :
    formatValidationError c5Body
        = .ok "Validation Error:\n  • body -> field: invalid".data
      ∧ strContains "Validation Error:\n  • body -> field: invalid".data
          "field".data = true
      ∧ strContains "Validation Error:\n  • body -> field: invalid".data
          "invalid".data = true
      ∧ extractFieldErrors c5Body
          = .ok [("body -> field".data, .str "invalid".data)] :=
  ⟨rfl, by decide, by decide, rfl⟩

/-- Whether a value is a Python list. -/
def PyVal.isList : PyVal → Bool
  | .list _ => true
  | _ => false

/-- Whether an `Except PyExc` computation completed without raising. -/
def exceptOk {α : Type} : Except PyExc α → Bool
  | .ok _ => true
  | .error _ => false

/-- A malformed 422 body on which `_extract_field_errors` raises: the
`detail` entry's `loc` is the integer 1, so the truthy `loc` is fed to
`" -> ".join(str(x) for x in loc)`, which raises `TypeError` on a
non-iterable. -/
def c6BadLoc : PyVal :=
  .dict [("detail".data,
    .list [.dict [("loc".data, .int 1), ("msg".data, .str "m".data)]])]

/-- C6 counterexample: field-error extraction CAN raise — on the
malformed body `{"detail": [{"loc": 1, "msg": "m"}]}` it raises
`TypeError`, contradicting "never raises an exception". -/
theorem c6_counterexample :
    extractFieldErrors c6BadLoc = .error .typeError
      ∧ exceptOk (extractFieldErrors c6BadLoc) = false :=
  ⟨rfl, rfl⟩

/-- C6 (amended): an unrecognized top-level shape (a dict whose
`detail`, if present, is not a list and whose `errors`, if present, is
not a dict) yields an empty map without raising; the recognized
`errors`-mapping shape yields the flat field-to-message map; but
extraction (or message formatting) can raise on malformed entries
inside a recognized shape, and it is `_request`'s enclosing try/except
in the 422 branch that then treats the exception as "no field errors",
substituting the raw-text message and an empty map. -/
theorem c6_extraction_safety :
    (∀ es : List (Str × PyVal),
        (∀ v, dictFind es "detail".data = some v → v.isList = false) →
        (∀ v, dictFind es "errors".data = some v → v.isDict = false) →
        extractFieldErrors (.dict es) = .ok [])
      ∧ (∀ (t : Str) (d : PyVal),
          exceptOk (formatValidationError d) = false
            ∨ exceptOk (extractFieldErrors d) = false →
          request (.response 422 t (some d))
            = .raised (.validationError ("Validation Error: ".data ++ t) []))
      ∧ extractFieldErrors (.dict [("errors".data,
            .dict [("a".data, .list [.str "x".data, .str "y".data]),
                   ("b".data, .str "z".data)])])
          = .ok [("a".data, .str "x; y".data), ("b".data, .str "z".data)] := by
  refine ⟨?_, ?_, rfl⟩
  · intro es hdet herr
    by_cases he : es.isEmpty
    · have : es = [] := by simpa using he
      subst this
      rfl
    · have hne : (!pyTruthy (.dict es)) = false := by
        simp [pyTruthy]
        simpa using he
      simp only [extractFieldErrors, pyContains, pySubscript, hne,
        Bool.false_eq_true, if_false]
      cases hd : dictFind es "detail".data with
      | none =>
        cases her : dictFind es "errors".data with
        | none => simp
        | some w =>
          have hw := herr w her
          cases w <;> simp [PyVal.isDict, Except.map] at hw ⊢
      | some v =>
        have hv := hdet v hd
        cases her : dictFind es "errors".data with
        | none => cases v <;> simp [PyVal.isList, Except.map] at hv ⊢
        | some w =>
          have hw := herr w her
          cases v <;> cases w <;>
            simp [PyVal.isList, PyVal.isDict, Except.map] at hv hw ⊢
  · intro t d h
    have hr : request (.response 422 t (some d))
        = (match formatValidationError d, extractFieldErrors d with
           | .ok m, .ok fe => .raised (.validationError m fe)
           | _, _ =>
              .raised (.validationError ("Validation Error: ".data ++ t) [])) :=
      rfl
    cases hf : formatValidationError d with
    | ok m =>
      cases hx : extractFieldErrors d with
      | ok fe =>
        exfalso
        rcases h with h | h
        · rw [hf] at h; exact absurd h (by simp [exceptOk])
        · rw [hx] at h; exact absurd h (by simp [exceptOk])
      | error e => rw [hr, hf, hx]
    | error e =>
      cases hx : extractFieldErrors d with
      | ok fe => rw [hr, hf, hx]
      | error e2 => rw [hr, hf, hx]

/-- C6 witness: the theorem applied at the unrecognized shape
`{"message": "hi"}` and at the malformed body `{"detail": [{"loc": 1,
"msg": "m"}]}` inside a 422 response, where the handler substitutes the
empty field-error map. -/
theorem c6_extraction_safety_witness :
    extractFieldErrors (.dict [("message".data, .str "hi".data)]) = .ok []
      ∧ request (.response 422 "raw body".data (some c6BadLoc))
          = .raised (.validationError
              ("Validation Error: ".data ++ "raw body".data) []) :=
  ⟨c6_extraction_safety.1 [("message".data, .str "hi".data)]
      (fun _ hv => Option.noConfusion hv) (fun _ hv => Option.noConfusion hv),
   c6_extraction_safety.2.1 "raw body".data c6BadLoc (Or.inr rfl)⟩

/-- The 503 error used to exercise the retry policy: the APIError a 503
response produces through `request` classification. -/
def err503 : SiteBayErr :=
  .apiError (.str "API Error: 503 - Service Unavailable".data)
    (some 503) Option.none

/-- C2: under the Middleware with the default 3 retries allowed, three
consecutive retryable failures followed by a success resolve to the
success value after exactly three retries with backoff delays
`base * 2 ^ 0`, `base * 2 ^ 1`, `base * 2 ^ 2` (0.5 s, 1 s, 2 s at the
default base 0.5); a first call failing with a non-retryable,
non-404 error resolves immediately to the propagated error with zero
retries and no delays. -/
theorem c2_retry_policy (table : List (Str × PyVal)) (name : Str) (b : ℚ)
    (v : PyVal) (e0 e1 e2 : SiteBayErr)
    (calls : Nat → Except SiteBayErr PyVal) :
    (retryableMessage (errMessage e0) = true →
      retryableMessage (errMessage e1) = true →
      retryableMessage (errMessage e2) = true →
      calls 0 = .error e0 → calls 1 = .error e1 → calls 2 = .error e2 →
      calls 3 = .ok v →
      middlewareRun 3 b table name calls
        = ⟨.value v, 3, [b * 2 ^ 0, b * 2 ^ 1, b * 2 ^ 2]⟩)
    ∧ (∀ e, retryableMessage (errMessage e) = false →
        e.isNotFoundErr = false →
        calls 0 = .error e →
        middlewareRun 3 b table name calls
          = ⟨.failed e (normalizeErrMsg name e), 0, []⟩) := by
  constructor
  · intro hr0 hr1 hr2 hc0 hc1 hc2 hc3
    simp [middlewareRun, mwLoop, hc0, hc1, hc2, hc3, hr0, hr1, hr2]
  · intro e hre hnf hc0
    have hs : settleFailure table name e 0 []
        = ⟨.failed e (normalizeErrMsg name e), 0, []⟩ := by
      cases hfb : dictFind table name with
      | none => simp [settleFailure, hfb]
      | some fb => simp [settleFailure, hfb, hnf]
    simp [middlewareRun, mwLoop, hc0, hre, hs]

/-- C2 witness: the policy applied with base 0.5 to three simulated 503
failures then a success (delays 0.5 s, 1 s, 2 s), and to an immediate
400 failure (zero retries). -/
theorem c2_retry_policy_witness :
    middlewareRun 3 (1/2 : ℚ) [] "list_sites".data
        (fun n => if n < 3 then .error err503 else .ok (.int 1))
      = ⟨.value (.int 1), 3, [1/2, 1, 2]⟩
    ∧ middlewareRun 3 (1/2 : ℚ) [] "list_sites".data
        (fun _ => .error (.apiError (.str "API Error: 400 - Bad Request".data)
          (some 400) Option.none))
      = ⟨.failed (.apiError (.str "API Error: 400 - Bad Request".data)
            (some 400) Option.none)
          (normalizeErrMsg "list_sites".data
            (.apiError (.str "API Error: 400 - Bad Request".data)
              (some 400) Option.none)), 0, []⟩ := by
  constructor
  · have h := (c2_retry_policy [] "list_sites".data (1/2 : ℚ) (.int 1)
      err503 err503 err503
      (fun n => if n < 3 then .error err503 else .ok (.int 1))).1
      (by decide) (by decide) (by decide) rfl rfl rfl rfl
    rw [h]
    norm_num
  · exact (c2_retry_policy [] "list_sites".data (1/2 : ℚ) (.int 1)
      err503 err503 err503
      (fun _ => .error (.apiError (.str "API Error: 400 - Bad Request".data)
        (some 400) Option.none))).2
      (.apiError (.str "API Error: 400 - Bad Request".data)
        (some 400) Option.none)
      (by decide) rfl rfl

/-- The client's 404 classification message. -/
def notFoundMsg : Str := "Requested resource not found".data

/-- The 404 message never carries the "Error calling tool ..." tag, for
any tool name, so normalization leaves it intact. -/
theorem stripTag_notFoundMsg (name : Str) :
    stripErrorCallingTag name notFoundMsg = notFoundMsg := rfl

/-- C3: when the first call fails with the client's 404 classification
(SiteNotFoundError, a non-retryable message), an operation registered
in the Fallback Policy Table with the empty-list fallback resolves to
the empty collection with no retries, while an unregistered operation
resolves to the propagated NotFound error with the normalized message
"Upstream API error for <name>: Requested resource not found". -/
theorem c3_fallback_policy (table : List (Str × PyVal)) (name : Str)
    (maxR : Nat) (b : ℚ) (calls : Nat → Except SiteBayErr PyVal)
    (hc0 : calls 0 = .error (.siteNotFoundError notFoundMsg)) :
    (dictFind table name = some (.list []) →
      middlewareRun maxR b table name calls = ⟨.value (.list []), 0, []⟩)
    ∧ (dictFind table name = Option.none →
      middlewareRun maxR b table name calls
        = ⟨.failed (.siteNotFoundError notFoundMsg)
            ("Upstream API error for ".data ++ name ++ ": ".data
              ++ notFoundMsg), 0, []⟩) := by
  have hretry : retryableMessage (errMessage (.siteNotFoundError notFoundMsg))
      = false := by decide
  have hnorm : normalizeErrMsg name (.siteNotFoundError notFoundMsg)
      = "Upstream API error for ".data ++ name ++ ": ".data ++ notFoundMsg := by
    simp [normalizeErrMsg, errMessage, stripTag_notFoundMsg]
  constructor
  · intro hfb
    cases maxR with
    | zero =>
      simp [middlewareRun, mwLoop, hc0, settleFailure, hfb,
        SiteBayErr.isNotFoundErr]
    | succ k =>
      simp [middlewareRun, mwLoop, hc0, hretry, settleFailure, hfb,
        SiteBayErr.isNotFoundErr]
  · intro hfb
    cases maxR with
    | zero =>
      simp [middlewareRun, mwLoop, hc0, settleFailure, hfb, hnorm]
    | succ k =>
      simp [middlewareRun, mwLoop, hc0, hretry, settleFailure, hfb, hnorm]

/-- C3 witness: the policy applied with a table registering the
empty-list fallback for "list_staging_sites" — a 404 there yields the
empty collection — and with no registration for "get_site" — a 404
there yields the normalized NotFound failure. -/
theorem c3_fallback_policy_witness :
    middlewareRun 3 (1/2 : ℚ) [("list_staging_sites".data, .list [])]
        "list_staging_sites".data
        (fun _ => .error (.siteNotFoundError notFoundMsg))
      = ⟨.value (.list []), 0, []⟩
    ∧ middlewareRun 3 (1/2 : ℚ) [("list_staging_sites".data, .list [])]
        "get_site".data (fun _ => .error (.siteNotFoundError notFoundMsg))
      = ⟨.failed (.siteNotFoundError notFoundMsg)
          ("Upstream API error for ".data ++ "get_site".data ++ ": ".data
            ++ notFoundMsg), 0, []⟩ :=
  ⟨(c3_fallback_policy [("list_staging_sites".data, .list [])]
      "list_staging_sites".data 3 (1/2 : ℚ)
      (fun _ => .error (.siteNotFoundError notFoundMsg)) rfl).1 rfl,
   (c3_fallback_policy [("list_staging_sites".data, .list [])]
      "get_site".data 3 (1/2 : ℚ)
      (fun _ => .error (.siteNotFoundError notFoundMsg)) rfl).2 rfl⟩

/-- C10 counterexample: on a first invocation (client not yet
initialized), even with confirm=False the server tool performs a Client
operation — the lazy `initialize_client` connection test issues a
`list_regions` request — so the trace is not empty, contradicting
"performs no Client operation at all". -/
theorem c10_counterexample :
    (serverDeleteSite false (.ok (.list [])) "x.example.com".data false
        (.ok .none)).2 = [.listRegions]
      ∧ ([ClientCall.listRegions] : List ClientCall) ≠ [] :=
  ⟨rfl, by decide⟩

/-- C10 (amended): with confirm=False the delete-site tool never issues
a delete request — the only Client operation its trace can contain is
the one-time lazy initialization connection test — and, whenever
initialization succeeds, it returns the confirmation-required message;
a delete request appears in the trace only when confirm=True. -/
theorem c10_delete_confirmation :
    (∀ already connTest fqdn outcome c,
        c ∈ (serverDeleteSite already connTest fqdn false outcome).2 →
        c = ClientCall.listRegions)
      ∧ (∀ already connTest fqdn outcome,
          (initializeClient already connTest).1 = .ok () →
          (serverDeleteSite already connTest fqdn false outcome).1
            = .ok (confirmationRequiredMsg fqdn))
      ∧ (∀ already connTest fqdn confirm outcome f,
          ClientCall.deleteSite f
              ∈ (serverDeleteSite already connTest fqdn confirm outcome).2 →
          confirm = true) := by
  refine ⟨?_, ?_, ?_⟩
  · intro already connTest fqdn outcome c hc
    cases already <;> cases connTest <;>
      simp [serverDeleteSite, initializeClient, toolDeleteSite] at hc <;>
      exact hc
  · intro already connTest fqdn outcome hinit
    cases already with
    | true => simp [serverDeleteSite, initializeClient, toolDeleteSite]
    | false =>
      cases connTest with
      | ok w => simp [serverDeleteSite, initializeClient, toolDeleteSite]
      | error e =>
        exfalso
        simp [initializeClient] at hinit
  · intro already connTest fqdn confirm outcome f hmem
    cases confirm with
    | true => rfl
    | false =>
      exfalso
      cases already <;> cases connTest <;>
        simp [serverDeleteSite, initializeClient, toolDeleteSite] at hmem

/-- C10 witness: the amended theorem applied on an already-initialized
client — confirm=False returns the confirmation-required message — and
to show the trace of that call carries no delete request. -/
theorem c10_delete_confirmation_witness :
    (serverDeleteSite true (.ok PyVal.none) "x.example.com".data false
        (.ok PyVal.none)).1
      = .ok (confirmationRequiredMsg "x.example.com".data)
    ∧ (ClientCall.listRegions
          ∈ (serverDeleteSite false (.ok (.list [])) "x.example.com".data false
            (.ok PyVal.none)).2 →
        ClientCall.listRegions = ClientCall.listRegions) :=
  ⟨c10_delete_confirmation.2.1 true (.ok PyVal.none) "x.example.com".data
     (.ok PyVal.none) rfl,
   c10_delete_confirmation.1 false (.ok (.list [])) "x.example.com".data
     (.ok PyVal.none) ClientCall.listRegions⟩
